import Mathlib

/-
  Shallow embedding of the funding-mix optimizer (tax-optimization-model.py).

  Real-number arithmetic of the source is embedded as exact rational
  arithmetic (ℚ).  Python exceptions are embedded as Option: a run of
  optimize_funding_mix that raises maps to none.
-/

namespace RenoFund

/-- 2024 federal bracket thresholds, as in calculate_tax_impact. -/
def federal_brackets : List ℚ := [0, 53359, 106717, 165430, 235675]

/-- 2024 federal marginal rates, as in calculate_tax_impact. -/
def federal_rates : List ℚ := [15/100, 205/1000, 26/100, 29/100, 33/100]

/-- 2024 BC bracket thresholds, as in calculate_tax_impact. -/
def bc_brackets : List ℚ := [0, 45654, 91310, 104835, 127299, 172602, 240716]

/-- 2024 BC marginal rates, as in calculate_tax_impact. -/
def bc_rates : List ℚ := [506/10000, 77/1000, 105/1000, 1229/10000, 147/1000, 168/1000, 205/1000]

/-- The loop of calculate_bracket_tax.  Each list element is the pair
(bracket size, rate) for one index i of the range over len(brackets)-1.
The source loop either consumes a full bracket and continues, or taxes the
leftover at this bracket rate and breaks; after the loop (broken or not)
the source adds remaining * rates[-1] whenever remaining > 0.  Note that on
the break path the source does not zero out remaining, so the post-loop
top-up fires again on the same leftover. -/
def bracketLoop (lastRate : ℚ) : List (ℚ × ℚ) → ℚ → ℚ → ℚ
  | [], remaining, tax =>
      if remaining > 0 then tax + remaining * lastRate else tax
  | (size, rate) :: rest, remaining, tax =>
      if remaining > size then
        bracketLoop lastRate rest (remaining - size) (tax + size * rate)
      else
        if remaining > 0 then tax + remaining * rate + remaining * lastRate
        else tax + remaining * rate

/-- The pairs (brackets[i+1] - brackets[i], rates[i]) for i < len(brackets)-1. -/
def bracketPairs (brackets rates : List ℚ) : List (ℚ × ℚ) :=
  List.zipWith (fun p r => (p.2 - p.1, r)) (brackets.zip brackets.tail) rates

/-- calculate_bracket_tax(amount, brackets, rates) from the source. -/
def calculate_bracket_tax (amount : ℚ) (brackets rates : List ℚ) : ℚ :=
  bracketLoop (rates.getLast?.getD 0) (bracketPairs brackets rates) amount 0

/-- calculate_tax_impact(capital_gain): 50% inclusion, then the federal and
BC bracket walks, summed.  The province argument of the source never varies
behavior and is omitted. -/
def calculate_tax_impact (capital_gain : ℚ) : ℚ :=
  let taxable_gain := capital_gain * (1/2)
  calculate_bracket_tax taxable_gain federal_brackets federal_rates
    + calculate_bracket_tax taxable_gain bc_brackets bc_rates

/-- One row of the per-scenario detail (one year of a schedule), with the
columns of the source DataFrame. -/
structure YearlyRecord where
  year : ℕ
  stock_sold : ℚ
  loc_used : ℚ
  tax_paid : ℚ
  interest_paid : ℚ
  total_cost : ℚ
deriving DecidableEq, Inhabited

/-- The inner loop of optimize_funding_mix over `for year in range(years)`,
as explicit state passing: the mutable variables remaining and loc_balance
are threaded through, and the appended scenario_detail rows are returned.
The year argument list is range(years); year 0 sells first_year_sale, later
years sell min(yearly_sale, remaining) and decrement remaining. -/
def evalYears (total_amount stock_value capital_gain interest_rate
    first_year_sale yearly_sale : ℚ) :
    List ℕ → ℚ → ℚ → List YearlyRecord
  | [], _, _ => []
  | year :: rest, remaining, loc_balance =>
      let stock_sold := if year = 0 then first_year_sale else min yearly_sale remaining
      let rem' := if year = 0 then remaining else remaining - stock_sold
      let year_capital_gain :=
        if stock_value > 0 then stock_sold / stock_value * capital_gain else 0
      let tax_paid := calculate_tax_impact year_capital_gain
      let loc_used := total_amount - stock_sold
      let interest_paid := loc_balance * interest_rate
      let total_year_cost := tax_paid + interest_paid
      ⟨year + 1, stock_sold, loc_used, tax_paid, interest_paid, total_year_cost⟩ ::
        evalYears total_amount stock_value capital_gain interest_rate
          first_year_sale yearly_sale rest rem' loc_used

/-- One scenario of optimize_funding_mix: given first_year_sale, initialize
remaining = stock_value - first_year_sale, yearly_sale = remaining/(years-1)
when years > 1 else 0, and run the year loop starting from
loc_balance = total_amount.  scenario_cost accumulates exactly the
total_year_cost of each row, so it equals the sum of the Total_Cost column. -/
def evalScenario (total_amount stock_value capital_gain interest_rate : ℚ)
    (years : ℤ) (first_year_sale : ℚ) : ℚ × List YearlyRecord :=
  let remaining := stock_value - first_year_sale
  let yearly_sale := if years > 1 then remaining / ((years : ℚ) - 1) else 0
  let detail := evalYears total_amount stock_value capital_gain interest_rate
    first_year_sale yearly_sale (List.range years.toNat) remaining total_amount
  ((detail.map YearlyRecord.total_cost).sum, detail)

/-- np.arange(start, stop, step) for a nonzero step: the values
start + k * step for k below the element count ceil((stop - start)/step).
(The step = 0 case raises in numpy; the caller models it as an error.) -/
def arange (start stop step : ℚ) : List ℚ :=
  (List.range (Int.ceil ((stop - start) / step)).toNat).map
    (fun k : ℕ => start + (k : ℚ) * step)

/-- The grid of candidate first-year sales:
np.arange(0, stock_value + step, step) with step = stock_value / 10. -/
def scenario_sales (stock_value : ℚ) : List ℚ :=
  arange 0 (stock_value + stock_value / 10) (stock_value / 10)

/-- Python min(scenarios, key=lambda x: x[0]): the first element whose cost
component is minimal; none on an empty list (min() raises ValueError). -/
def selectMin : List (ℚ × List YearlyRecord) → Option (ℚ × List YearlyRecord)
  | [] => none
  | s :: rest => some (rest.foldl (fun best c => if c.1 < best.1 then c else best) s)

/-- optimize_funding_mix(total_amount, stock_value, capital_gain,
interest_rate, years).  step = stock_value / 10; when step = 0 the
np.arange call raises (numpy rejects a zero step), embedded as none.
Otherwise every grid point is evaluated and the cheapest scenario's
detail rows are returned. -/
def optimize_funding_mix (total_amount stock_value capital_gain interest_rate : ℚ)
    (years : ℤ) : Option (List YearlyRecord) :=
  let step := stock_value / 10
  if step = 0 then none
  else
    (selectMin ((scenario_sales stock_value).map
      (evalScenario total_amount stock_value capital_gain interest_rate years))).map
      Prod.snd

/-! ### Helper lemmas -/

lemma toNat_eleven : (11 : ℤ).toNat = 11 := rfl

lemma range_eleven : List.range 11 = [0, 1, 2, 3, 4, 5, 6, 7, 8, 9, 10] := rfl

lemma bracketLoop_nonneg (lastRate : ℚ) (hl : 0 ≤ lastRate) :
    ∀ (pairs : List (ℚ × ℚ)), (∀ p ∈ pairs, 0 ≤ p.1 ∧ 0 ≤ p.2) →
    ∀ remaining tax : ℚ, 0 ≤ remaining → 0 ≤ tax →
    0 ≤ bracketLoop lastRate pairs remaining tax := by
  intro pairs
  induction pairs with
  | nil =>
    intro _ remaining tax hr ht
    simp only [bracketLoop]
    split_ifs with h
    · nlinarith
    · exact ht
  | cons p rest ih =>
    intro hp remaining tax hr ht
    obtain ⟨size, rate⟩ := p
    obtain ⟨hs, hrate⟩ := hp (size, rate) (List.mem_cons_self _ _)
    have hp2 : ∀ p ∈ rest, 0 ≤ p.1 ∧ 0 ≤ p.2 :=
      fun p hmem => hp p (List.mem_cons_of_mem _ hmem)
    simp only [bracketLoop]
    split_ifs with h1 h2
    · exact ih hp2 _ _ (by linarith) (by nlinarith)
    · nlinarith
    · have hz : remaining = 0 := le_antisymm (not_lt.mp h2) hr
      simp [hz, ht]

lemma fed_pairs_eval : bracketPairs federal_brackets federal_rates =
    [(53359, 15/100), (53358, 205/1000), (58713, 26/100), (70245, 29/100)] := by
  norm_num [bracketPairs, federal_brackets, federal_rates]

lemma bc_pairs_eval : bracketPairs bc_brackets bc_rates =
    [(45654, 506/10000), (45656, 77/1000), (13525, 105/1000),
     (22464, 1229/10000), (45303, 147/1000), (68114, 168/1000)] := by
  norm_num [bracketPairs, bc_brackets, bc_rates]

lemma calculate_tax_impact_nonneg (g : ℚ) (hg : 0 ≤ g) : 0 ≤ calculate_tax_impact g := by
  have hbase : 0 ≤ g * (1/2) := by linarith
  have h1 : 0 ≤ calculate_bracket_tax (g * (1/2)) federal_brackets federal_rates := by
    rw [calculate_bracket_tax, fed_pairs_eval]
    apply bracketLoop_nonneg
    · norm_num [federal_rates]
    · intro p hp
      fin_cases hp <;> norm_num
    · exact hbase
    · exact le_refl 0
  have h2 : 0 ≤ calculate_bracket_tax (g * (1/2)) bc_brackets bc_rates := by
    rw [calculate_bracket_tax, bc_pairs_eval]
    apply bracketLoop_nonneg
    · norm_num [bc_rates]
    · intro p hp
      fin_cases hp <;> norm_num
    · exact hbase
    · exact le_refl 0
  rw [calculate_tax_impact]
  exact add_nonneg h1 h2

section EvalYearsLemmas

variable (ta sv cg ir fys q : ℚ)

lemma evalYears_length : ∀ (ys : List ℕ) (rem bal : ℚ),
    (evalYears ta sv cg ir fys q ys rem bal).length = ys.length := by
  intro ys
  induction ys with
  | nil => intro rem bal; simp [evalYears]
  | cons y rest ih =>
    intro rem bal
    simp only [evalYears, List.length_cons]
    rw [ih]

lemma evalYears_loc_used : ∀ (ys : List ℕ) (rem bal : ℚ) (i : ℕ)
    (hi : i < (evalYears ta sv cg ir fys q ys rem bal).length),
    ((evalYears ta sv cg ir fys q ys rem bal)[i]).loc_used =
      ta - ((evalYears ta sv cg ir fys q ys rem bal)[i]).stock_sold := by
  intro ys
  induction ys with
  | nil => intro rem bal i hi; simp [evalYears] at hi
  | cons y rest ih =>
    intro rem bal i hi
    match i with
    | 0 => simp [evalYears]
    | Nat.succ j =>
      simp only [evalYears, List.getElem_cons_succ]
      apply ih

lemma evalYears_interest_head : ∀ (ys : List ℕ) (rem bal : ℚ)
    (h0 : 0 < (evalYears ta sv cg ir fys q ys rem bal).length),
    ((evalYears ta sv cg ir fys q ys rem bal)[0]).interest_paid = bal * ir := by
  intro ys rem bal h0
  match ys with
  | [] => simp [evalYears] at h0
  | y :: rest => simp [evalYears]

lemma evalYears_interest_succ : ∀ (ys : List ℕ) (rem bal : ℚ) (i : ℕ)
    (h1 : i < (evalYears ta sv cg ir fys q ys rem bal).length)
    (h2 : i + 1 < (evalYears ta sv cg ir fys q ys rem bal).length),
    ((evalYears ta sv cg ir fys q ys rem bal)[i + 1]).interest_paid =
      (ta - ((evalYears ta sv cg ir fys q ys rem bal)[i]).stock_sold) * ir := by
  intro ys
  induction ys with
  | nil => intro rem bal i h1 h2; simp [evalYears] at h1
  | cons y rest ih =>
    intro rem bal i h1 h2
    match i with
    | 0 =>
      match rest with
      | [] => simp [evalYears, evalYears_length] at h2
      | y2 :: rest2 => simp [evalYears]
    | Nat.succ j =>
      simp only [evalYears, List.getElem_cons_succ]
      apply ih

lemma evalYears_sold_map (hq : 0 ≤ q) : ∀ (ys : List ℕ), (∀ y ∈ ys, y ≠ 0) →
    ∀ (bal : ℚ),
    (evalYears ta sv cg ir fys q ys ((ys.length : ℚ) * q) bal).map YearlyRecord.stock_sold =
      List.replicate ys.length q := by
  intro ys
  induction ys with
  | nil => intro _ bal; simp [evalYears]
  | cons y rest ih =>
    intro hys bal
    have hy : y ≠ 0 := hys y (List.mem_cons_self _ _)
    have hlen : (((y :: rest).length : ℚ)) * q = ((rest.length : ℚ) + 1) * q := by
      push_cast [List.length_cons]
      ring
    rw [hlen]
    have hmin : min q (((rest.length : ℚ) + 1) * q) = q := by
      apply min_eq_left
      nlinarith [Nat.cast_nonneg (α := ℚ) rest.length]
    simp only [evalYears, hy, if_false, hmin]
    have hrem : ((rest.length : ℚ) + 1) * q - q = (rest.length : ℚ) * q := by ring
    rw [hrem, List.map_cons, List.length_cons, List.replicate_succ]
    rw [ih (fun z hz => hys z (List.mem_cons_of_mem _ hz)) _]

lemma evalYears_nonneg (hfys0 : 0 ≤ fys) (hfys1 : fys ≤ ta) (hq0 : 0 ≤ q) (hq1 : q ≤ ta)
    (hcg : 0 ≤ cg) (hir : 0 ≤ ir) :
    ∀ (ys : List ℕ) (rem bal : ℚ), 0 ≤ rem → 0 ≤ bal →
    ∀ r ∈ evalYears ta sv cg ir fys q ys rem bal,
      0 ≤ r.stock_sold ∧ 0 ≤ r.loc_used ∧ 0 ≤ r.tax_paid ∧ 0 ≤ r.interest_paid := by
  intro ys
  induction ys with
  | nil => intro rem bal _ _ r hr; simp [evalYears] at hr
  | cons y rest ih =>
    intro rem bal hrem hbal r hr
    have hsold0 : 0 ≤ if y = 0 then fys else min q rem := by
      split_ifs
      · exact hfys0
      · exact le_min hq0 hrem
    have hsold1 : (if y = 0 then fys else min q rem) ≤ ta := by
      split_ifs
      · exact hfys1
      · exact le_trans (min_le_left _ _) hq1
    simp only [evalYears, List.mem_cons] at hr
    rcases hr with rfl | hr
    · refine ⟨hsold0, ?_, ?_, ?_⟩
      · simp only []
        linarith
      · apply calculate_tax_impact_nonneg
        by_cases hsv : sv > 0
        · rw [if_pos hsv]
          exact mul_nonneg (div_nonneg hsold0 (le_of_lt hsv)) hcg
        · rw [if_neg hsv]
      · exact mul_nonneg hbal hir
    · refine ih _ _ ?_ ?_ r hr
      · split_ifs with hy
        · exact hrem
        · have : min q rem ≤ rem := min_le_right _ _
          linarith
      · linarith

end EvalYearsLemmas

lemma foldl_min_mem : ∀ (l : List (ℚ × List YearlyRecord)) (s : ℚ × List YearlyRecord),
    l.foldl (fun best c => if c.1 < best.1 then c else best) s ∈ s :: l := by
  intro l
  induction l with
  | nil => intro s; simp
  | cons c rest ih =>
    intro s
    simp only [List.foldl_cons]
    rcases List.mem_cons.mp (ih (if c.1 < s.1 then c else s)) with h | h
    · rw [h]
      split_ifs
      · simp
      · simp
    · simp [List.mem_cons.mpr (Or.inr (List.mem_cons.mpr (Or.inr h)))]

lemma foldl_min_const (x : ℚ × List YearlyRecord) :
    ∀ (l : List (ℚ × List YearlyRecord)), (∀ c ∈ l, c = x) →
    l.foldl (fun best c => if c.1 < best.1 then c else best) x = x := by
  intro l
  induction l with
  | nil => intro _; simp
  | cons c rest ih =>
    intro hl
    have hc : c = x := hl c (List.mem_cons_self _ _)
    simp only [List.foldl_cons, hc, ite_self]
    exact ih (fun z hz => hl z (List.mem_cons_of_mem _ hz))

lemma selectMin_mem (l : List (ℚ × List YearlyRecord)) (s : ℚ × List YearlyRecord)
    (h : selectMin l = some s) : s ∈ l := by
  match l with
  | [] => simp [selectMin] at h
  | a :: rest =>
    simp only [selectMin, Option.some.injEq] at h
    rw [← h]
    exact foldl_min_mem rest a

lemma selectMin_const (l : List (ℚ × List YearlyRecord)) (x : ℚ × List YearlyRecord)
    (hl : ∀ c ∈ l, c = x) (hne : l ≠ []) : selectMin l = some x := by
  match l with
  | [] => exact absurd rfl hne
  | a :: rest =>
    have ha : a = x := hl a (List.mem_cons_self _ _)
    simp only [selectMin, ha, Option.some.injEq]
    exact foldl_min_const x rest (fun z hz => hl z (List.mem_cons_of_mem _ hz))

lemma optimize_funding_mix_eq_some (ta sv cg ir : ℚ) (years : ℤ) (res : List YearlyRecord)
    (h : optimize_funding_mix ta sv cg ir years = some res) :
    ∃ fys ∈ scenario_sales sv, res = (evalScenario ta sv cg ir years fys).2 := by
  rw [optimize_funding_mix] at h
  by_cases hz : sv / 10 = 0
  · simp [hz] at h
  · rw [if_neg hz, Option.map_eq_some'] at h
    obtain ⟨s, hs, hsnd⟩ := h
    have hmem := selectMin_mem _ _ hs
    rw [List.mem_map] at hmem
    obtain ⟨fys, hfys, heq⟩ := hmem
    exact ⟨fys, hfys, by rw [← hsnd, ← heq]⟩

lemma scenario_sales_eq (sv : ℚ) (h : sv ≠ 0) :
    scenario_sales sv = (List.range 11).map (fun k : ℕ => (k : ℚ) * (sv / 10)) := by
  have harg : (sv + sv / 10 - 0) / (sv / 10) = (11 : ℚ) := by
    field_simp
    ring
  rw [scenario_sales, arange, harg]
  have hceil : (Int.ceil (11 : ℚ)).toNat = 11 := by
    rw [show (11 : ℚ) = ((11 : ℤ) : ℚ) by norm_num, Int.ceil_intCast, toNat_eleven]
  rw [hceil]
  simp only [zero_add]

lemma scenario_sales_mem (sv fys : ℚ) (hsv : 0 < sv) (h : fys ∈ scenario_sales sv) :
    0 ≤ fys ∧ fys ≤ sv := by
  rw [scenario_sales_eq sv (ne_of_gt hsv), List.mem_map] at h
  obtain ⟨k, hk, rfl⟩ := h
  rw [List.mem_range] at hk
  have hk10 : (k : ℚ) ≤ 10 := by exact_mod_cast Nat.le_of_lt_succ hk
  have hk0 : (0 : ℚ) ≤ (k : ℚ) := Nat.cast_nonneg k
  constructor
  · have : (0 : ℚ) < sv / 10 := by positivity
    exact mul_nonneg hk0 (le_of_lt this)
  · have h1 : (k : ℚ) * (sv / 10) ≤ 10 * (sv / 10) := by
      apply mul_le_mul_of_nonneg_right hk10
      positivity
    have h2 : (10 : ℚ) * (sv / 10) = sv := by ring
    linarith

lemma evalScenario_sold_map (ta sv cg ir : ℚ) (years : ℤ) (fys : ℚ)
    (hy : 2 ≤ years) (h0 : 0 ≤ fys) (h1 : fys ≤ sv) :
    ((evalScenario ta sv cg ir years fys).2).map YearlyRecord.stock_sold =
      fys :: List.replicate (years.toNat - 1) ((sv - fys) / ((years : ℚ) - 1)) := by
  have hyQ : (2 : ℚ) ≤ (years : ℚ) := by exact_mod_cast hy
  have hne : ((years : ℚ)) - 1 ≠ 0 := by
    intro hc
    linarith
  obtain ⟨m, hm⟩ : ∃ m, years.toNat = m + 1 := ⟨years.toNat - 1, by omega⟩
  have hmQ : ((m : ℚ)) = (years : ℚ) - 1 := by
    have ha : ((years.toNat : ℚ)) = (years : ℚ) := by
      exact_mod_cast congrArg (fun z : ℤ => (z : ℚ))
        (Int.toNat_of_nonneg (by omega : (0 : ℤ) ≤ years))
    have hb : ((years.toNat : ℚ)) = (m : ℚ) + 1 := by exact_mod_cast hm
    linarith
  simp only [evalScenario]
  rw [if_pos (by omega : years > 1), hm, List.range_succ_eq_map]
  set q := (sv - fys) / ((years : ℚ) - 1) with hqdef
  have hq0 : 0 ≤ q := by
    rw [hqdef]
    exact div_nonneg (by linarith) (by linarith)
  simp only [evalYears, List.map_cons, Nat.add_sub_cancel, reduceIte]
  have hrem : sv - fys =
      ((((List.range m).map Nat.succ).length : ℚ)) * q := by
    simp only [List.length_map, List.length_range]
    rw [hmQ, hqdef]
    field_simp
  rw [hrem, evalYears_sold_map ta sv cg ir fys q hq0 _
    (by intro z hz
        simp only [List.mem_map] at hz
        obtain ⟨w, _, rfl⟩ := hz
        exact Nat.succ_ne_zero w) _]
  simp only [List.length_map, List.length_range]

lemma evalScenario_nonpos_years (ta sv cg ir : ℚ) (years : ℤ) (hy : years < 1) (fys : ℚ) :
    evalScenario ta sv cg ir years fys = (0, []) := by
  have h0 : years.toNat = 0 := Int.toNat_of_nonpos (by omega)
  simp [evalScenario, h0, evalYears]

lemma evalScenario_records_nonneg (ta sv cg ir : ℚ) (years : ℤ) (fys : ℚ)
    (hsv : 0 < sv) (hta : sv ≤ ta) (hcg : 0 ≤ cg) (hir : 0 ≤ ir)
    (h0 : 0 ≤ fys) (h1 : fys ≤ sv) :
    ∀ r ∈ (evalScenario ta sv cg ir years fys).2,
      0 ≤ r.stock_sold ∧ 0 ≤ r.loc_used ∧ 0 ≤ r.tax_paid ∧ 0 ≤ r.interest_paid := by
  simp only [evalScenario]
  set q := if years > 1 then (sv - fys) / ((years : ℚ) - 1) else 0 with hqdef
  have hq0 : 0 ≤ q := by
    rw [hqdef]
    split_ifs with h
    · have hQ : (1 : ℚ) < (years : ℚ) := by exact_mod_cast h
      exact div_nonneg (by linarith) (by linarith)
    · exact le_refl 0
  have hq1 : q ≤ ta := by
    rw [hqdef]
    split_ifs with h
    · have hQ : (2 : ℚ) ≤ (years : ℚ) := by exact_mod_cast (by omega : (2 : ℤ) ≤ years)
      have hd : (sv - fys) / ((years : ℚ) - 1) ≤ sv - fys :=
        div_le_self (by linarith) (by linarith)
      linarith
    · linarith
  exact evalYears_nonneg ta sv cg ir fys q h0 (by linarith) hq0 hq1 hcg hir
    (List.range years.toNat) (sv - fys) ta (by linarith) (by linarith)

lemma evalScenario_loc_used (ta sv cg ir : ℚ) (years : ℤ) (fys : ℚ) (i : ℕ)
    (hi : i < ((evalScenario ta sv cg ir years fys).2).length) :
    (((evalScenario ta sv cg ir years fys).2)[i]).loc_used =
      ta - (((evalScenario ta sv cg ir years fys).2)[i]).stock_sold := by
  simp only [evalScenario] at hi ⊢
  exact evalYears_loc_used ta sv cg ir fys _ _ _ _ i hi

lemma evalScenario_interest_head (ta sv cg ir : ℚ) (years : ℤ) (fys : ℚ)
    (h0 : 0 < ((evalScenario ta sv cg ir years fys).2).length) :
    (((evalScenario ta sv cg ir years fys).2)[0]).interest_paid = ta * ir := by
  simp only [evalScenario] at h0 ⊢
  exact evalYears_interest_head ta sv cg ir fys _ _ _ _ h0

lemma evalScenario_interest_succ (ta sv cg ir : ℚ) (years : ℤ) (fys : ℚ) (i : ℕ)
    (h1 : i < ((evalScenario ta sv cg ir years fys).2).length)
    (h2 : i + 1 < ((evalScenario ta sv cg ir years fys).2).length) :
    (((evalScenario ta sv cg ir years fys).2)[i + 1]).interest_paid =
      (ta - (((evalScenario ta sv cg ir years fys).2)[i]).stock_sold) * ir := by
  simp only [evalScenario] at h1 h2 ⊢
  exact evalYears_interest_succ ta sv cg ir fys _ _ _ _ i h1 h2

/-! ### Concrete evaluations used by counterexamples and witnesses -/

lemma scenario_sales_50000 : scenario_sales 50000 =
    [0, 5000, 10000, 15000, 20000, 25000, 30000, 35000, 40000, 45000, 50000] := by
  norm_num [scenario_sales, arange, toNat_eleven, range_eleven]

lemma opt_config_A : optimize_funding_mix 100000 50000 40000 (1/10) 2 =
    some [⟨1, 50000, 50000, 14712, 10000, 24712⟩, ⟨2, 0, 100000, 0, 5000, 5000⟩] := by
  norm_num [optimize_funding_mix, scenario_sales_50000, selectMin, evalScenario, evalYears,
    calculate_tax_impact, calculate_bracket_tax, bracketPairs, bracketLoop,
    federal_brackets, federal_rates, bc_brackets, bc_rates]

lemma opt_config_B : optimize_funding_mix 100000 50000 40000 (1/10) 1 =
    some [⟨1, 0, 100000, 0, 10000, 10000⟩] := by
  norm_num [optimize_funding_mix, scenario_sales_50000, selectMin, evalScenario, evalYears,
    calculate_tax_impact, calculate_bracket_tax, bracketPairs, bracketLoop,
    federal_brackets, federal_rates, bc_brackets, bc_rates]

lemma opt_config_C : optimize_funding_mix 10000 50000 0 (1/10) 2 =
    some [⟨1, 50000, -40000, 0, 1000, 1000⟩, ⟨2, 0, 10000, 0, -4000, -4000⟩] := by
  norm_num [optimize_funding_mix, scenario_sales_50000, selectMin, evalScenario, evalYears,
    calculate_tax_impact, calculate_bracket_tax, bracketPairs, bracketLoop,
    federal_brackets, federal_rates, bc_brackets, bc_rates]

lemma headI_eq_getElem_zero {l : List YearlyRecord} (h0 : 0 < l.length) : l.headI = l[0] := by
  cases l with
  | nil => simp at h0
  | cons a t => simp

/-! ### Claim theorems -/

/-- Claim C1 (code bug): calculate_tax_impact performs no validation at all;
at the failing input capital_gain = -10000 it runs the bracket walks on the
negative taxable base and returns the value -1003 instead of raising
InvalidInput as the spec, and the repository's own test suite, require. -/
theorem tax_negative_gain_no_rejection : calculate_tax_impact (-10000) = -1003 := by
  norm_num [calculate_tax_impact, calculate_bracket_tax, bracketPairs, bracketLoop,
    federal_brackets, federal_rates, bc_brackets, bc_rates]

/-- Claim C2, counterexample: at total_amount = 100000, asset_value = 50000,
total_gain = 40000, rate = 1/10, years = 2, the returned optimum sells 50000
in year 1 and 0 in year 2, and its year-2 credit-balance field is 100000,
which differs from expenditure minus cumulative sales through year 2
(100000 - (50000 + 0) = 50000).  The claimed cumulative relation is false. -/
theorem credit_balance_not_cumulative_cex :
    optimize_funding_mix 100000 50000 40000 (1/10) 2 =
      some [⟨1, 50000, 50000, 14712, 10000, 24712⟩, ⟨2, 0, 100000, 0, 5000, 5000⟩] ∧
    ¬ ((100000 : ℚ) = 100000 - (50000 + 0)) :=
  ⟨opt_config_A, by norm_num⟩

/-- Claim C2, amended: in every returned schedule, year y's credit-balance
field equals the expenditure amount minus that single year's sale (not the
cumulative amount sold), and the balance carried into year y+1's interest
computation is that same per-year quantity. -/
theorem credit_balance_per_year (ta sv cg ir : ℚ) (years : ℤ) (res : List YearlyRecord)
    (h : optimize_funding_mix ta sv cg ir years = some res) (i : ℕ) (hi : i < res.length) :
    (res[i]).loc_used = ta - (res[i]).stock_sold ∧
    ∀ hi2 : i + 1 < res.length,
      (res[i + 1]).interest_paid = (res[i]).loc_used * ir := by
  obtain ⟨fys, hmem, rfl⟩ := optimize_funding_mix_eq_some ta sv cg ir years res h
  constructor
  · exact evalScenario_loc_used ta sv cg ir years fys i hi
  · intro hi2
    rw [evalScenario_loc_used ta sv cg ir years fys i hi]
    exact evalScenario_interest_succ ta sv cg ir years fys i hi hi2

/-- Claim C2, witness: the amended statement instantiated on the optimum for
total_amount = 100000, asset_value = 50000, gain = 40000, rate = 1/10,
years = 2: year 2's balance field is 100000 - 0, and year 2's interest is
year 1's balance field times the rate. -/
theorem credit_balance_per_year_witness :
    optimize_funding_mix 100000 50000 40000 (1/10) 2 =
      some [⟨1, 50000, 50000, 14712, 10000, 24712⟩, ⟨2, 0, 100000, 0, 5000, 5000⟩] ∧
    (⟨2, 0, 100000, 0, 5000, 5000⟩ : YearlyRecord).loc_used =
      100000 - (⟨2, 0, 100000, 0, 5000, 5000⟩ : YearlyRecord).stock_sold ∧
    (⟨2, 0, 100000, 0, 5000, 5000⟩ : YearlyRecord).interest_paid =
      (⟨1, 50000, 50000, 14712, 10000, 24712⟩ : YearlyRecord).loc_used * (1/10) := by
  refine ⟨opt_config_A, ?_, ?_⟩
  · exact (credit_balance_per_year 100000 50000 40000 (1/10) 2 _ opt_config_A 1
      (by norm_num)).1
  · exact (credit_balance_per_year 100000 50000 40000 (1/10) 2 _ opt_config_A 0
      (by norm_num)).2 (by norm_num)

/-- Claim C3 (code bug): at total_amount = 100000, asset_value = 50000,
total_gain = 40000, rate = 1/10, years = 2, the optimum sells 50000 in year 1
but its year-1 interest_paid is 10000 (the full initial balance times the
rate), not (100000 - 50000) * 1/10 = 5000 as the claim, and the repository's
own test test_interest_calculation_accuracy, require. -/
theorem year_one_interest_charged_on_full_balance :
    optimize_funding_mix 100000 50000 40000 (1/10) 2 =
      some [⟨1, 50000, 50000, 14712, 10000, 24712⟩, ⟨2, 0, 100000, 0, 5000, 5000⟩] ∧
    ((10000 : ℚ)) ≠ (100000 - 50000) * (1/10) :=
  ⟨opt_config_A, by norm_num⟩

/-- Claim C4, counterexample: at total_amount = 100000, asset_value = 50000,
total_gain = 40000, rate = 1/10, years = 1, the returned optimum sells 0, so
the sum of amount_sold is 0, not within 1/100 of the asset value 50000
(and the entire asset value is certainly not sold in year 1). -/
theorem sold_sum_single_year_cex :
    optimize_funding_mix 100000 50000 40000 (1/10) 1 =
      some [⟨1, 0, 100000, 0, 10000, 10000⟩] ∧
    ¬ (|(([(⟨1, 0, 100000, 0, 10000, 10000⟩ : YearlyRecord)].map
        YearlyRecord.stock_sold).sum) - 50000| ≤ 1/100) := by
  refine ⟨opt_config_B, ?_⟩
  intro hc
  rw [List.map_cons, List.map_nil, List.sum_cons, List.sum_nil] at hc
  norm_num at hc

/-- Claim C4, amended: for years at least 2 and positive asset value, the sum
of amount_sold over the returned schedule equals the asset value exactly (in
exact arithmetic, hence within any tolerance); for years = 1 the optimizer can
return a schedule selling less than the full asset value. -/
theorem sold_sum_eq_asset_when_multiyear (ta sv cg ir : ℚ) (years : ℤ)
    (res : List YearlyRecord) (hy : 2 ≤ years) (hsv : 0 < sv)
    (h : optimize_funding_mix ta sv cg ir years = some res) :
    (res.map YearlyRecord.stock_sold).sum = sv := by
  obtain ⟨fys, hmem, rfl⟩ := optimize_funding_mix_eq_some ta sv cg ir years res h
  obtain ⟨hf0, hf1⟩ := scenario_sales_mem sv fys hsv hmem
  rw [evalScenario_sold_map ta sv cg ir years fys hy hf0 hf1, List.sum_cons,
    List.sum_replicate, nsmul_eq_mul]
  have hyQ : (2 : ℚ) ≤ (years : ℚ) := by exact_mod_cast hy
  have hcast : ((years.toNat - 1 : ℕ) : ℚ) = (years : ℚ) - 1 := by
    have ha : ((years.toNat : ℚ)) = (years : ℚ) := by
      exact_mod_cast congrArg (fun z : ℤ => (z : ℚ))
        (Int.toNat_of_nonneg (by omega : (0 : ℤ) ≤ years))
    have h1n : 1 ≤ years.toNat := by omega
    have hb : ((years.toNat - 1 : ℕ) : ℚ) = ((years.toNat : ℚ)) - (((1 : ℕ)) : ℚ) :=
      Nat.cast_sub h1n
    rw [Nat.cast_one] at hb
    linarith
  rw [hcast]
  have hne : ((years : ℚ)) - 1 ≠ 0 := by
    intro hc
    linarith
  field_simp

/-- Claim C4, witness: the amended statement instantiated at
total_amount = 100000, asset_value = 50000, gain = 40000, rate = 1/10,
years = 2: the optimum's sales sum to exactly 50000. -/
theorem sold_sum_eq_asset_when_multiyear_witness :
    (2 : ℤ) ≤ 2 ∧ (0 : ℚ) < 50000 ∧
    optimize_funding_mix 100000 50000 40000 (1/10) 2 =
      some [⟨1, 50000, 50000, 14712, 10000, 24712⟩, ⟨2, 0, 100000, 0, 5000, 5000⟩] ∧
    (([⟨1, 50000, 50000, 14712, 10000, 24712⟩,
       ⟨2, 0, 100000, 0, 5000, 5000⟩] : List YearlyRecord).map
      YearlyRecord.stock_sold).sum = 50000 :=
  ⟨by norm_num, by norm_num, opt_config_A,
    sold_sum_eq_asset_when_multiyear 100000 50000 40000 (1/10) 2 _
      (by norm_num) (by norm_num) opt_config_A⟩

/-- Claim C5, counterexample: at total_amount = 10000, asset_value = 50000
(asset worth more than the expenditure), gain = 0, rate = 1/10, years = 2, the
returned optimum's year-1 credit-balance field is -40000 < 0 and its year-2
interest_paid is -4000 < 0, so the claimed non-negativity fails. -/
theorem record_fields_negative_cex :
    optimize_funding_mix 10000 50000 0 (1/10) 2 =
      some [⟨1, 50000, -40000, 0, 1000, 1000⟩, ⟨2, 0, 10000, 0, -4000, -4000⟩] ∧
    ((-40000 : ℚ) < 0 ∧ (-4000 : ℚ) < 0) :=
  ⟨opt_config_C, by norm_num⟩

/-- Claim C5, amended: when additionally the asset value does not exceed the
expenditure amount and the gain and the interest rate are non-negative, every
record of the returned schedule has non-negative amount sold, credit balance,
tax and interest. -/
theorem record_fields_nonneg (ta sv cg ir : ℚ) (years : ℤ) (res : List YearlyRecord)
    (hy : 1 ≤ years) (hsv : 0 < sv) (hta : sv ≤ ta) (hcg : 0 ≤ cg) (hir : 0 ≤ ir)
    (h : optimize_funding_mix ta sv cg ir years = some res) :
    ∀ r ∈ res, 0 ≤ r.stock_sold ∧ 0 ≤ r.loc_used ∧ 0 ≤ r.tax_paid ∧ 0 ≤ r.interest_paid := by
  obtain ⟨fys, hmem, rfl⟩ := optimize_funding_mix_eq_some ta sv cg ir years res h
  obtain ⟨hf0, hf1⟩ := scenario_sales_mem sv fys hsv hmem
  exact evalScenario_records_nonneg ta sv cg ir years fys hsv hta hcg hir hf0 hf1

/-- Claim C5, witness: the amended statement instantiated at
total_amount = 100000, asset_value = 50000, gain = 40000, rate = 1/10,
years = 2, on the optimum's year-1 record. -/
theorem record_fields_nonneg_witness :
    optimize_funding_mix 100000 50000 40000 (1/10) 2 =
      some [⟨1, 50000, 50000, 14712, 10000, 24712⟩, ⟨2, 0, 100000, 0, 5000, 5000⟩] ∧
    (0 : ℚ) ≤ (⟨1, 50000, 50000, 14712, 10000, 24712⟩ : YearlyRecord).stock_sold ∧
    (0 : ℚ) ≤ (⟨1, 50000, 50000, 14712, 10000, 24712⟩ : YearlyRecord).loc_used ∧
    (0 : ℚ) ≤ (⟨1, 50000, 50000, 14712, 10000, 24712⟩ : YearlyRecord).tax_paid ∧
    (0 : ℚ) ≤ (⟨1, 50000, 50000, 14712, 10000, 24712⟩ : YearlyRecord).interest_paid := by
  refine ⟨opt_config_A, ?_⟩
  exact record_fields_nonneg 100000 50000 40000 (1/10) 2 _
    (by norm_num) (by norm_num) (by norm_num) (by norm_num) (by norm_num)
    opt_config_A _ (by simp)

/-- Claim C6 (code bug): with asset_value = 0 the step of the scenario grid is
0 and the np.arange call raises (even before that guard, min over an empty
scenario list would raise too), so optimize_funding_mix fails for every such
configuration instead of running with per-year gains defined as 0. -/
theorem zero_asset_value_raises (ta cg ir : ℚ) (years : ℤ) :
    optimize_funding_mix ta 0 cg ir years = none := by
  simp [optimize_funding_mix]

/-- Claim C7, counterexample: at total_amount = 100000, asset_value = 50000,
gain = 40000, rate = 1/10, years = 0 < 1, the optimizer does not reject the
input: it returns successfully with an empty schedule. -/
theorem short_horizon_no_error_cex :
    optimize_funding_mix 100000 50000 40000 (1/10) 0 = some [] := by
  norm_num [optimize_funding_mix, scenario_sales_50000, selectMin, evalScenario, evalYears]

/-- Claim C7, amended: for every configuration with years < 1 (and a nonzero
asset value, so that scenario generation itself does not raise), the optimizer
does not reject the input: it returns an empty schedule with no error. -/
theorem short_horizon_returns_empty_schedule (ta sv cg ir : ℚ) (years : ℤ)
    (hy : years < 1) (hsv : sv ≠ 0) :
    optimize_funding_mix ta sv cg ir years = some [] := by
  simp only [optimize_funding_mix]
  rw [if_neg (div_ne_zero hsv (by norm_num : (10 : ℚ) ≠ 0))]
  have hconst : ∀ c ∈ (scenario_sales sv).map (evalScenario ta sv cg ir years),
      c = ((0 : ℚ), ([] : List YearlyRecord)) := by
    intro c hc
    rw [List.mem_map] at hc
    obtain ⟨fys, _, rfl⟩ := hc
    exact evalScenario_nonpos_years ta sv cg ir years hy fys
  have hne : (scenario_sales sv).map (evalScenario ta sv cg ir years) ≠ [] := by
    rw [scenario_sales_eq sv hsv, range_eleven]
    simp
  rw [selectMin_const _ _ hconst hne]
  rfl

/-- Claim C7, witness: the amended statement instantiated at years = -3 with
asset value 50000. -/
theorem short_horizon_returns_empty_schedule_witness :
    (-3 : ℤ) < 1 ∧ (50000 : ℚ) ≠ 0 ∧
    optimize_funding_mix 100000 50000 40000 (1/10) (-3) = some [] :=
  ⟨by norm_num, by norm_num,
    short_horizon_returns_empty_schedule 100000 50000 40000 (1/10) (-3)
      (by norm_num) (by norm_num)⟩

/-- Claim C8: for a positive asset value the scenario grid has exactly 11
candidate first-year sales 0, step, 2 step, ..., 10 step with step equal to
one tenth of the asset value, and for years > 1 every scenario sells the
unsold remainder in equal shares of (asset - first sale)/(years - 1) in each
of the remaining years - 1 years. -/
theorem eleven_scenarios_even_split (ta sv cg ir : ℚ) (years : ℤ) (hsv : 0 < sv) :
    (scenario_sales sv).length = 11 ∧
    scenario_sales sv = (List.range 11).map (fun k : ℕ => (k : ℚ) * (sv / 10)) ∧
    (1 < years → ∀ fys ∈ scenario_sales sv,
      ((evalScenario ta sv cg ir years fys).2).map YearlyRecord.stock_sold =
        fys :: List.replicate (years.toNat - 1) ((sv - fys) / ((years : ℚ) - 1))) := by
  have he := scenario_sales_eq sv (ne_of_gt hsv)
  refine ⟨?_, he, ?_⟩
  · rw [he]
    simp
  · intro hy fys hmem
    obtain ⟨hf0, hf1⟩ := scenario_sales_mem sv fys hsv hmem
    exact evalScenario_sold_map ta sv cg ir years fys (by omega) hf0 hf1

/-- Claim C8, witness: at asset value 50000 the grid has exactly 11 samples. -/
theorem eleven_scenarios_even_split_witness :
    (0 : ℚ) < 50000 ∧ (scenario_sales 50000).length = 11 :=
  ⟨by norm_num, (eleven_scenarios_even_split 1 50000 1 1 2 (by norm_num)).1⟩

/-- Claim C9 (code bug): the tax function is not monotone: the gains 106718
and 106720 have taxable bases 53359 and 53360 on opposite sides of the first
federal threshold, and because the leftover inside a bracket is re-taxed at
the top rate after the early break, the tax at the smaller gain exceeds the
tax at the larger one. -/
theorem tax_monotonicity_fails :
    (106718 : ℚ) < 106720 ∧ calculate_tax_impact 106720 < calculate_tax_impact 106718 := by
  constructor
  · norm_num
  · norm_num [calculate_tax_impact, calculate_bracket_tax, bracketPairs, bracketLoop,
      federal_brackets, federal_rates, bc_brackets, bc_rates]

/-- Claim C10: in every evaluated scenario of every configuration, the year-1
interest equals total_amount * interest_rate regardless of the year-1 sale,
and the interest of each later year y equals
(total_amount - amount sold in year y-1) * interest_rate: it depends only on
the single immediately preceding year's sale. -/
theorem interest_uses_prior_year_balance (ta sv cg ir : ℚ) (years : ℤ) (fys : ℚ) :
    (∀ h0 : 0 < ((evalScenario ta sv cg ir years fys).2).length,
      (((evalScenario ta sv cg ir years fys).2)[0]).interest_paid = ta * ir) ∧
    (∀ (i : ℕ) (h1 : i < ((evalScenario ta sv cg ir years fys).2).length)
      (h2 : i + 1 < ((evalScenario ta sv cg ir years fys).2).length),
      (((evalScenario ta sv cg ir years fys).2)[i + 1]).interest_paid =
        (ta - (((evalScenario ta sv cg ir years fys).2)[i]).stock_sold) * ir) := by
  constructor
  · intro h0
    exact evalScenario_interest_head ta sv cg ir years fys h0
  · intro i h1 h2
    exact evalScenario_interest_succ ta sv cg ir years fys i h1 h2

/-- Claim C10, witness: at total_amount = 100000, rate = 1/10, years = 2 and a
first-year sale of 5000, the scenario's year-1 interest is 100000 * 1/10. -/
theorem interest_uses_prior_year_balance_witness :
    0 < ((evalScenario 100000 50000 40000 (1/10) 2 5000).2).length ∧
    ((evalScenario 100000 50000 40000 (1/10) 2 5000).2).headI.interest_paid =
      100000 * (1/10) := by
  have hlen : ((evalScenario 100000 50000 40000 (1/10) 2 5000).2).length = 2 := by
    simp only [evalScenario]
    rw [evalYears_length]
    rfl
  have h0 : 0 < ((evalScenario 100000 50000 40000 (1/10) 2 5000).2).length := by
    rw [hlen]
    norm_num
  refine ⟨h0, ?_⟩
  have h := (interest_uses_prior_year_balance 100000 50000 40000 (1/10) 2 5000).1 h0
  rw [headI_eq_getElem_zero h0]
  exact h

end RenoFund
